import Mathlib

/-!
Verification of the state-synchronization core of `platonic_garden`
(`wlan_main.py` — coordinator, `wifi_client.py` — follower), as a shallow
embedding in Lean.  Time is modelled as `Nat` seconds; byte strings are
modelled as `String` payloads (frames have their trailing 0x00 sentinel
stripped, as `read_until_null_terminator` does).
-/

/- Configuration constants from `wlan_main.py`. -/

def TIME_BETWEEN_ANIMATIONS_SECONDS : Nat := 90

def LOCK_WINDOW_SECONDS : Nat := 10

def MAX_LOCK_TIME_SECONDS : Nat := 60

/-- Modelled from the spec: `SharedState` (defined in `utils.py`, which is not
part of the sources) is a mapping with two fixed keys, `animation`
(string or null) and `last_locked_animation` (timestamp or null); keys are
never deleted, only their values are replaced, and reads return a
point-in-time snapshot.  In a pure embedding the state record itself is the
snapshot, and an awaited `update` call is field replacement.
`SharedState.update` is a coroutine function: it is awaited at
`wlan_main.py` line 134 and `wifi_client.py` line 180 (awaiting a plain
synchronous result would raise `TypeError` on the first rotation), so a
call site that does not await it merely builds a coroutine object that is
never run, and the write does not happen. -/
structure SharedState where
  animation : Option String
  last_locked_animation : Option Nat
deriving Repr, DecidableEq

/-- The initial state built in `main` of `wlan_main.py`: both keys null. -/
def initialState : SharedState := { animation := none, last_locked_animation := none }

/-- JSON encoding of an optional string value, as `json.dumps` renders it:
`null` for `None`, a double-quoted literal for a string.  Faithful to
`json.dumps` only for strings of printable ASCII characters containing no
quote or backslash (which `json.dumps` would escape). -/
def encodeJsonStr : Option String → String
  | none => "null"
  | some s => "\"" ++ s ++ "\""

/-- JSON encoding of an optional numeric timestamp, as `json.dumps` renders it. -/
def encodeJsonNat : Option Nat → String
  | none => "null"
  | some n => toString n

/-- The response body of `provide_animation` in `wlan_main.py`:
`json.dumps(current_shared_state)` for the two-key state dict, keys in
their initialization order (`animation` first, then
`last_locked_animation`). -/
def encodeState (st : SharedState) : String :=
  "\x7b\"animation\": " ++ encodeJsonStr st.animation ++
    ", \"last_locked_animation\": " ++ encodeJsonNat st.last_locked_animation ++ "\x7d"

/-- One TCP exchange as performed by `handle_client` in `wlan_main.py`,
given the already-deframed request payload and the wall-clock time `now`
at which the request is handled.  Returns the state after the exchange and
the response payload (`none` when the empty request causes the early
`return` with no response).  Dispatch is exact match against the
`RESPONSES` table: `GET_ANIMATION` runs `provide_animation`,
`LOCK_ANIMATION` runs `lock_animation`, anything else answers
`UNKNOWN_REQUEST`.  `lock_animation` (line 35) calls
`state.update('last_locked_animation', time.time())` WITHOUT `await`:
since `update` is a coroutine function (it is awaited at line 134 and at
`wifi_client.py` line 180), the call only builds a coroutine object that
is never scheduled, so the write to `last_locked_animation` never
executes and the handler merely answers `LOCKED` with the state
unchanged. -/
def handleClient (request : String) (st : SharedState) (_now : Nat) :
    SharedState × Option String :=
  if request = "" then (st, none)
  else if request = "GET_ANIMATION" then (st, some (encodeState st))
  else if request = "LOCK_ANIMATION" then (st, some "LOCKED")
  else (st, some "UNKNOWN_REQUEST")

/-- Modelled from the spec: `ANIMATIONS` (defined in `animations.py`, which is
not part of the sources) is a fixed ordered list of animation name strings of
length at least 2; throughout, it appears as the parameter `catalog`.
`random.choice(ANIMATIONS)` returns the entry at a random index; the random
index sequence is the parameter `choice`, reduced modulo the length as any
in-range index source.  The `k`-th sample of `choose_animation`. -/
def randomChoice (catalog : List String) (choice : Nat → Nat) (k : Nat) : String :=
  catalog.getD (choice k % catalog.length) ""

/-- The selection step of `choose_animation` in `wlan_main.py`: draw
`random.choice(ANIMATIONS)` and re-draw while the draw equals the previous
selection (`new_animation == animation`; the previous selection is `none` on
the very first rotation, which no string equals).  The source loop has no
bound; `fuel` bounds the recursion in the embedding, and `none` means the
source loop would still be re-drawing after `fuel` draws. -/
def chooseNew (catalog : List String) (choice : Nat → Nat) :
    Nat → Nat → Option String → Option String
  | 0, _, _ => none
  | fuel + 1, k, prev =>
      let c := randomChoice catalog choice k
      if some c = prev then chooseNew catalog choice fuel (k + 1) prev
      else some c

/-- One whole rotation of `choose_animation`, as far as the `animation` value
is concerned: the value written by rotation `n` given the value `prev`
written by the previous rotation.  If the re-draw loop never exits
(`chooseNew` runs out of fuel) no further write happens and the last written
value persists. -/
def schedulerNext (catalog : List String) (choice : Nat → Nat) (fuel : Nat)
    (prev : Option String) : Option String :=
  match chooseNew catalog choice fuel 0 prev with
  | some a => some a
  | none => prev

/-- The coordinator's `animation` value over rotations: `main` initializes it
to `None`, then each rotation of `choose_animation` replaces it via
`schedulerNext`; `choice n` is the index stream rotation `n` draws from. -/
def schedulerTrace (catalog : List String) (choice : Nat → Nat → Nat)
    (fuel : Nat) : Nat → Option String
  | 0 => none
  | n + 1 => schedulerNext catalog (choice n) fuel (schedulerTrace catalog choice fuel n)

/-- The post-sleep wait loop of `choose_animation` in `wlan_main.py`:
while the last lock request `ll` is less than `LOCK_WINDOW_SECONDS` old and
less than `TIME_BETWEEN_ANIMATIONS_SECONDS + MAX_LOCK_TIME_SECONDS` have
passed since the rotation started at `start`, sleep one second (modelled as
`now + 1`) and re-read `last_locked_animation` (the environment function
`locked` gives the value read at each instant; it is always a timestamp
because only `lock_animation` writes the field, and it writes times).
The structural fuel `b` is chosen by the wrapper `lockWait` large enough
that it runs out only at instants where the source loop condition is
already false, so the fuel-exhaustion branch agrees with the source's
exit. -/
def lockWaitGo (locked : Nat → Nat) (start : Nat) : Nat → Nat → Nat → Nat
  | 0, now, _ => now
  | b + 1, now, ll =>
      if now - ll < LOCK_WINDOW_SECONDS ∧
          now - start < TIME_BETWEEN_ANIMATIONS_SECONDS + MAX_LOCK_TIME_SECONDS then
        lockWaitGo locked start b (now + 1) (locked (now + 1))
      else now

/-- The wait loop entered at time `now` with last read lock timestamp `ll`:
returns the instant at which `choose_animation` proceeds to the next
rotation.  The fuel `start + 151 - now` is exhausted only when
`now - start ≥ 151 > 150`, where the loop condition is false anyway. -/
def lockWait (locked : Nat → Nat) (start now ll : Nat) : Nat :=
  lockWaitGo locked start
    (start + TIME_BETWEEN_ANIMATIONS_SECONDS + MAX_LOCK_TIME_SECONDS + 1 - now) now ll

/-- The end of one rotation cycle of `choose_animation` that started at
`start`: the scheduler sleeps `TIME_BETWEEN_ANIMATIONS_SECONDS`, reads
`last_locked_animation` (`wakeRead`), and if it is set enters the wait
loop; the result is the instant the next rotation begins. -/
def rotationEnd (locked : Nat → Nat) (wakeRead : Option Nat) (start : Nat) : Nat :=
  match wakeRead with
  | none => start + TIME_BETWEEN_ANIMATIONS_SECONDS
  | some ll => lockWait locked start (start + TIME_BETWEEN_ANIMATIONS_SECONDS) ll

/-- The broadcast message of `broadcast_state` in `wlan_main.py`:
`json.dumps(\x7b'animation': current_state.get('animation')\x7d)`.  Faithful
to `json.dumps` for animation names made of printable ASCII characters with
no quote or backslash (which `json.dumps` would escape). -/
def encodeBroadcast (v : Option String) : String :=
  "\x7b\"animation\": " ++ encodeJsonStr v ++ "\x7d"

/-- Consume an expected sequence of characters from the front of the input;
`none` when the input does not start with it. -/
def dropExpected : List Char → List Char → Option (List Char)
  | [], cs => some cs
  | _ :: _, [] => none
  | p :: ps, c :: cs => if c = p then dropExpected ps cs else none

/-- Read a JSON string body: the characters up to the closing quote (no
escape sequences, as produced for names with no quote or backslash). -/
def takeUntilQuote : List Char → Option (List Char × List Char)
  | [] => none
  | c :: rest =>
      if c = '"' then some ([], rest)
      else
        match takeUntilQuote rest with
        | some (s, r) => some (c :: s, r)
        | none => none

/-- Read the JSON value in the `animation` position: `null` or a quoted
string. -/
def parseAnimValue (cs : List Char) : Option (Option String × List Char) :=
  match dropExpected ('n' :: 'u' :: 'l' :: 'l' :: []) cs with
  | some r => some (none, r)
  | none =>
      match cs with
      | c :: rest =>
          if c = '"' then
            match takeUntilQuote rest with
            | some (s, r) => some (some (String.mk s), r)
            | none => none
          else none
      | [] => none

/-- The leading characters common to every broadcast message. -/
def broadcastHeader : List Char := ("\x7b\"animation\": ").data

/-- Decode a broadcast datagram, character-list form. -/
def decodeChars (cs : List Char) : Option (Option String) :=
  match dropExpected broadcastHeader cs with
  | none => none
  | some rest =>
      match parseAnimValue rest with
      | some (v, r) => if r = ('\x7d' :: []) then some v else none
      | none => none

/-- The decode step of `listen_for_udp_state` in `wifi_client.py`:
`json.loads(data.decode('utf-8'))` followed by `.get('animation')`,
modelled restricted to the broadcast message grammar
`\x7b"animation": <null or string>\x7d` (the only JSON the coordinator
sends); `some v` means the datagram decoded with the `animation` field
holding `v` (`none` inside being JSON `null`), and the outer `none` means
a decode failure (`json.JSONDecodeError`). -/
def decodeBroadcast (s : String) : Option (Option String) :=
  decodeChars s.data

/-- The per-datagram behavior of `listen_for_udp_state` in
`wifi_client.py`: on decode success the handler takes
`state_data.get('animation')` and updates the local `animation` key only
when the value `is not None`; on decode failure the message is logged and
discarded.  In every case the function returns a state and the listener
loop continues. -/
def processDatagram (st : SharedState) (data : String) : SharedState :=
  match decodeBroadcast data with
  | none => st
  | some none => st
  | some (some name) => { st with animation := some name }

/-- The driver environment of one fault-free run of `connect_to_wifi` in
`wifi_client.py`: the external `network.STAT_GOT_IP` constant, the link
status returned by the `k`-th `wlan.status()` poll, and the results of the
two `wlan.isconnected()` checks (before the join attempt and after the
wait loop). -/
structure WifiEnv where
  STAT_GOT_IP : Int
  status : Nat → Int
  isconnected0 : Bool
  isconnectedAfter : Bool

/-- The wait loop of `connect_to_wifi`: with `w = max_wait` attempts
remaining and `polls` status reads already made, read `wlan.status()` and
break as soon as it equals `STAT_GOT_IP` or is negative, else decrement
and sleep one second.  Returns the total number of status polls made. -/
def pollLoop (env : WifiEnv) : Nat → Nat → Nat
  | 0, polls => polls
  | w + 1, polls =>
      if env.status polls = env.STAT_GOT_IP ∨ env.status polls < 0 then polls + 1
      else pollLoop env w (polls + 1)

/-- The observable outcome of `connect_to_wifi`: the returned boolean, the
radio state on return, and how many times `wlan.status()` was polled. -/
structure ConnectOutcome where
  returned : Bool
  radioActive : Bool
  polls : Nat
deriving Repr, DecidableEq

/-- Number of status polls a run of `connect_to_wifi` makes: none when the
link is already up before the join attempt, else the wait loop with
`max_wait = 20`. -/
def connectPolls (env : WifiEnv) : Nat :=
  if env.isconnected0 then 0 else pollLoop env 20 0

/-- A fault-free run of `connect_to_wifi` in `wifi_client.py`: after the
wait loop, `wlan.isconnected()` decides success; on failure the status is
mapped to an error message (diagnostic only) and `wlan.active(False)`
deactivates the radio before `False` is returned; on success the radio
stays active and `True` is returned. -/
def connect_to_wifi (env : WifiEnv) : ConnectOutcome :=
  if env.isconnectedAfter then
    { returned := true, radioActive := true, polls := connectPolls env }
  else
    { returned := false, radioActive := false, polls := connectPolls env }

/-- A driver environment for `connect_to_wifi` in which every underlying
call can fault (raise): each field is the outcome of the corresponding
call in source order — `network.WLAN(...)`, the initial
`wlan.active(False)`, `wlan.active(True)`, the first `wlan.isconnected()`,
`wlan.connect(...)`, the `wlan.status()` polls, the final
`wlan.isconnected()`, the failure-branch `wlan.status()`, the
failure-branch `wlan.active(False)`, and the `wlan.active(False)` inside
the exception handlers. -/
structure FaultyDriver where
  wlanCtor : Except String Unit
  deactStart : Except String Unit
  act : Except String Unit
  isconn0 : Except String Bool
  connectCall : Except String Unit
  statusPoll : Nat → Except String Int
  STAT_GOT_IP : Int
  isconnFinal : Except String Bool
  statusFinal : Except String Int
  deactFailPath : Except String Unit
  deactHandler : Except String Unit

/-- The wait loop of `connect_to_wifi` when status reads may fault. -/
def pollLoopE (d : FaultyDriver) : Nat → Nat → Except String Unit
  | 0, _ => .ok ()
  | w + 1, k => do
      let s ← d.statusPoll k
      if s = d.STAT_GOT_IP ∨ s < 0 then pure ()
      else pollLoopE d w (k + 1)

/-- The `try` body of `connect_to_wifi` (everything between `try:` and the
`except` clauses), propagating any fault of an underlying call. -/
def connectBody (d : FaultyDriver) : Except String Bool := do
  let _ ← d.wlanCtor
  let _ ← d.deactStart
  let _ ← d.act
  let c0 ← d.isconn0
  if c0 = false then
    let _ ← d.connectCall
    let _ ← pollLoopE d 20 0
  let cf ← d.isconnFinal
  if cf then
    pure true
  else do
    let _ ← d.statusFinal
    let _ ← d.deactFailPath
    pure false

/-- `connect_to_wifi` including its `except OSError` / `except Exception`
handlers: any fault of the body is caught, logged, and converted to the
return value `False`; the handler attempts `wlan.active(False)` whenever
`wlan` is not `None` (that is, whenever the constructor call succeeded),
inside its own `try` whose failure is also swallowed.  The result is the
returned boolean paired with whether the handler attempted the radio
shutdown; the function is total — no fault escapes to the caller. -/
def connectWithFaults (d : FaultyDriver) : Bool × Bool :=
  match connectBody d with
  | .ok b => (b, false)
  | .error _ =>
      match d.wlanCtor with
      | .ok _ => (false, true)
      | .error _ => (false, false)

/-- The outcome of the transport phase of `send_message` in
`wifi_client.py`: either some fault occurred (connect or read timeout,
socket error, any other exception) or a deframed response payload was
read. -/
inductive SendOutcome where
  | fault (msg : String)
  | response (raw : String)

/-- The Python return value of `send_message`: `None` (modelled as the
outer `none`), raw response bytes, or a parsed JSON object. -/
inductive SendValue where
  | raw (s : String)
  | obj (st : SharedState)
deriving Repr, DecidableEq

/-- `send_message` in `wifi_client.py`, given the transport outcome:
every fault path returns `None`; an empty response returns `None`; the
exact response `UNKNOWN_REQUEST` is logged and returns `None`; otherwise
the raw payload is returned as-is when `json_response` is false, else it
is parsed (`loads` parametrizes the external `json.loads`, whose failure
also yields `None`). -/
def send_message (outcome : SendOutcome) (jsonResponse : Bool)
    (loads : String → Option SharedState) : Option SendValue :=
  match outcome with
  | .fault _ => none
  | .response raw =>
      if raw = "" then none
      else if raw = "UNKNOWN_REQUEST" then none
      else if jsonResponse = false then some (.raw raw)
      else
        match loads raw with
        | some dict => some (.obj dict)
        | none => none

/-- C2: whenever the re-draw loop of `choose_animation` terminates with a
selection, that selection differs from the previous one — consecutive
scheduler selections are never equal (stated for any catalog; the size-2
precondition is what makes termination possible, not what the safety
property needs). -/
theorem chooseNew_ne_prev (catalog : List String) (choice : Nat → Nat)
    (fuel k : Nat) (prev : Option String) (a : String)
    (h : chooseNew catalog choice fuel k prev = some a) :
    some a ≠ prev := by
  induction fuel generalizing k with
  | zero => simp [chooseNew] at h
  | succ fuel ih =>
      unfold chooseNew at h
      by_cases hc : some (randomChoice catalog choice k) = prev
      · rw [if_pos hc] at h
        exact ih (k + 1) h
      · rw [if_neg hc] at h
        rw [h] at hc
        exact hc

/-- Witness for C2: with catalog `["a", "b"]`, previous selection `"a"` and an
index stream that first re-draws `"a"`, the loop settles on `"b"` ≠ `"a"`. -/
theorem chooseNew_ne_prev_witness :
    chooseNew ["a", "b"] (fun k => k) 3 0 (some "a") = some "b" ∧
      (some "b" : Option String) ≠ some "a" :=
  ⟨by decide, chooseNew_ne_prev ["a", "b"] (fun k => k) 3 0 (some "a") "b" (by decide)⟩

/-- A draw from a nonempty catalog is a catalog member. -/
theorem randomChoice_mem (catalog : List String) (choice : Nat → Nat) (k : Nat)
    (hne : catalog ≠ []) : randomChoice catalog choice k ∈ catalog := by
  have hlen : 0 < catalog.length := List.length_pos.mpr hne
  have hlt : choice k % catalog.length < catalog.length := Nat.mod_lt _ hlen
  unfold randomChoice
  rw [List.getD_eq_getElem?_getD, List.getElem?_eq_getElem hlt]
  exact List.getElem_mem hlt

/-- A terminating selection is a catalog member. -/
theorem chooseNew_mem (catalog : List String) (choice : Nat → Nat)
    (fuel k : Nat) (prev : Option String) (a : String)
    (h : chooseNew catalog choice fuel k prev = some a)
    (hne : catalog ≠ []) : a ∈ catalog := by
  induction fuel generalizing k with
  | zero => simp [chooseNew] at h
  | succ fuel ih =>
      unfold chooseNew at h
      by_cases hc : some (randomChoice catalog choice k) = prev
      · rw [if_pos hc] at h
        exact ih (k + 1) h
      · rw [if_neg hc] at h
        simp only [Option.some.injEq] at h
        rw [← h]
        exact randomChoice_mem catalog choice k hne

/-- C10: every value the scheduler ever makes the `animation` field hold is
either the initial `None` or a member of the catalog; once non-null it is a
catalog member in every subsequent state. -/
theorem schedulerTrace_mem_catalog (catalog : List String)
    (choice : Nat → Nat → Nat) (fuel : Nat) (hne : catalog ≠ []) (n : Nat)
    (a : String) (h : schedulerTrace catalog choice fuel n = some a) :
    a ∈ catalog := by
  induction n with
  | zero => simp [schedulerTrace] at h
  | succ n ih =>
      unfold schedulerTrace schedulerNext at h
      cases hc : chooseNew catalog (choice n) fuel 0
        (schedulerTrace catalog choice fuel n) with
      | some b =>
          rw [hc] at h
          simp only [Option.some.injEq] at h
          rw [← h]
          exact chooseNew_mem catalog (choice n) fuel 0 _ b hc hne
      | none =>
          rw [hc] at h
          exact ih h

/-- Witness for C10: catalog `["a", "b"]`, constant index stream, two
rotations in: the trace holds `"a"`, a member of the catalog. -/
theorem schedulerTrace_mem_catalog_witness : ("a" : String) ∈ ["a", "b"] :=
  schedulerTrace_mem_catalog ["a", "b"] (fun _ _ => 0) 3 (by decide) 1 "a" (by decide)

/-- C1, evaluated at the failing input: a `LOCK_ANIMATION` exchange against
the initial state, handled at time 5, answers exactly `LOCKED`, yet —
because the `state.update` call at `wlan_main.py` line 35 is never awaited
— `last_locked_animation` remains null, and the subsequent
`GET_ANIMATION` exchange returns the snapshot of the unchanged initial
state, in which the field is still null: the claimed side effect does not
occur. -/
theorem lock_animation_write_skipped :
    handleClient "LOCK_ANIMATION" initialState 5 = (initialState, some "LOCKED") ∧
    (handleClient "LOCK_ANIMATION" initialState 5).1.last_locked_animation = none ∧
    (handleClient "GET_ANIMATION" (handleClient "LOCK_ANIMATION" initialState 5).1 6).2 =
      some (encodeState initialState) :=
  ⟨rfl, rfl, rfl⟩

/-- C5: any non-empty request payload other than `GET_ANIMATION` and
`LOCK_ANIMATION` is answered with exactly `UNKNOWN_REQUEST`, and the shared
state is not modified. -/
theorem unknown_request_response (request : String) (st : SharedState) (now : Nat)
    (hne : request ≠ "") (hget : request ≠ "GET_ANIMATION")
    (hlock : request ≠ "LOCK_ANIMATION") :
    handleClient request st now = (st, some "UNKNOWN_REQUEST") := by
  unfold handleClient
  rw [if_neg hne, if_neg hget, if_neg hlock]

/-- Witness for C5: the concrete request `PING` against the initial state. -/
theorem unknown_request_response_witness :
    handleClient "PING" initialState 0 = (initialState, some "UNKNOWN_REQUEST") :=
  unknown_request_response "PING" initialState 0 (by decide) (by decide) (by decide)

/-- Unfolding equation for the wait loop at a successor fuel value. -/
theorem lockWaitGo_succ (locked : Nat → Nat) (start b now ll : Nat) :
    lockWaitGo locked start (b + 1) now ll =
      if now - ll < LOCK_WINDOW_SECONDS ∧
          now - start < TIME_BETWEEN_ANIMATIONS_SECONDS + MAX_LOCK_TIME_SECONDS then
        lockWaitGo locked start b (now + 1) (locked (now + 1))
      else now := rfl

/-- The wait loop never moves time backwards. -/
theorem lockWaitGo_ge (locked : Nat → Nat) (start : Nat) :
    ∀ b now ll, now ≤ lockWaitGo locked start b now ll := by
  intro b
  induction b with
  | zero => intro now ll; exact Nat.le_refl now
  | succ b ih =>
      intro now ll
      rw [lockWaitGo_succ]
      by_cases hc : now - ll < LOCK_WINDOW_SECONDS ∧
          now - start < TIME_BETWEEN_ANIMATIONS_SECONDS + MAX_LOCK_TIME_SECONDS
      · rw [if_pos hc]
        exact Nat.le_trans (Nat.le_succ now) (ih (now + 1) (locked (now + 1)))
      · rw [if_neg hc]

/-- The wait loop never runs past the 150-second absolute ceiling. -/
theorem lockWaitGo_le (locked : Nat → Nat) (start : Nat) :
    ∀ b now ll,
      now ≤ start + TIME_BETWEEN_ANIMATIONS_SECONDS + MAX_LOCK_TIME_SECONDS →
      lockWaitGo locked start b now ll ≤
        start + TIME_BETWEEN_ANIMATIONS_SECONDS + MAX_LOCK_TIME_SECONDS := by
  intro b
  induction b with
  | zero => intro now ll h; exact h
  | succ b ih =>
      intro now ll h
      rw [lockWaitGo_succ]
      by_cases hc : now - ll < LOCK_WINDOW_SECONDS ∧
          now - start < TIME_BETWEEN_ANIMATIONS_SECONDS + MAX_LOCK_TIME_SECONDS
      · rw [if_pos hc]
        refine ih (now + 1) (locked (now + 1)) ?_
        have h2 := hc.2
        simp only [TIME_BETWEEN_ANIMATIONS_SECONDS, MAX_LOCK_TIME_SECONDS] at h2 ⊢
        omega
      · rw [if_neg hc]
        exact h

/-- C3: for every rotation of `choose_animation` starting at `start`, the
next rotation begins no later than `start + 90 + 60 = start + 150`
seconds, whatever sequence of further lock requests `locked` delivers; and
if the lock timestamp read when the 90-second sleep ends falls inside the
10-second lock window, the next rotation is strictly delayed past the
nominal 90-second instant. -/
theorem rotation_delay_bounded (locked : Nat → Nat) (wakeRead : Option Nat)
    (start : Nat) :
    rotationEnd locked wakeRead start ≤
      start + TIME_BETWEEN_ANIMATIONS_SECONDS + MAX_LOCK_TIME_SECONDS ∧
    (∀ ll, wakeRead = some ll →
      start + TIME_BETWEEN_ANIMATIONS_SECONDS - ll < LOCK_WINDOW_SECONDS →
      start + TIME_BETWEEN_ANIMATIONS_SECONDS < rotationEnd locked wakeRead start) := by
  constructor
  · cases wakeRead with
    | none =>
        show start + TIME_BETWEEN_ANIMATIONS_SECONDS ≤
          start + TIME_BETWEEN_ANIMATIONS_SECONDS + MAX_LOCK_TIME_SECONDS
        exact Nat.le_add_right _ _
    | some ll =>
        exact lockWaitGo_le locked start _ _ ll (Nat.le_add_right _ _)
  · intro ll hread hwin
    subst hread
    show start + TIME_BETWEEN_ANIMATIONS_SECONDS <
      lockWait locked start (start + TIME_BETWEEN_ANIMATIONS_SECONDS) ll
    unfold lockWait
    have hb : start + TIME_BETWEEN_ANIMATIONS_SECONDS + MAX_LOCK_TIME_SECONDS + 1 -
        (start + TIME_BETWEEN_ANIMATIONS_SECONDS) = MAX_LOCK_TIME_SECONDS + 1 := by
      omega
    rw [hb, lockWaitGo_succ, if_pos]
    · calc start + TIME_BETWEEN_ANIMATIONS_SECONDS
          < start + TIME_BETWEEN_ANIMATIONS_SECONDS + 1 := Nat.lt_succ_self _
        _ ≤ _ := lockWaitGo_ge locked start MAX_LOCK_TIME_SECONDS _ _
    · refine ⟨hwin, ?_⟩
      simp only [TIME_BETWEEN_ANIMATIONS_SECONDS, MAX_LOCK_TIME_SECONDS]
      omega

/-- Consuming a sequence the input actually starts with succeeds and leaves
the remainder. -/
theorem dropExpected_append (p : List Char) :
    ∀ rest, dropExpected p (p ++ rest) = some rest := by
  induction p with
  | nil => intro rest; rfl
  | cons c cs ih =>
      intro rest
      show dropExpected (c :: cs) (c :: (cs ++ rest)) = some rest
      unfold dropExpected
      rw [if_pos rfl]
      exact ih rest

/-- Reading a string body that contains no quote stops exactly at the
closing quote. -/
theorem takeUntilQuote_append (r : List Char) :
    ∀ s : List Char, '"' ∉ s → takeUntilQuote (s ++ '"' :: r) = some (s, r) := by
  intro s
  induction s with
  | nil =>
      intro _
      show takeUntilQuote ('"' :: r) = some ([], r)
      unfold takeUntilQuote
      rw [if_pos rfl]
  | cons c cs ih =>
      intro h
      have hc : c ≠ '"' := fun hq => h (hq ▸ List.mem_cons_self c cs)
      have hcs : '"' ∉ cs := fun hm => h (List.mem_cons_of_mem c hm)
      show takeUntilQuote (c :: (cs ++ '"' :: r)) = some (c :: cs, r)
      unfold takeUntilQuote
      rw [if_neg hc, ih hcs]

/-- A quoted no-escape string body parses back to itself. -/
theorem parseAnimValue_str (cs r : List Char) (h : '"' ∉ cs) :
    parseAnimValue ('"' :: (cs ++ '"' :: r)) = some (some (String.mk cs), r) := by
  simp [parseAnimValue, dropExpected, takeUntilQuote_append r cs h]

/-- Decoding a message that starts with the broadcast header reduces to
parsing its value part. -/
theorem decodeChars_append (rest : List Char) :
    decodeChars (broadcastHeader ++ rest) =
      match parseAnimValue rest with
      | some (v, r) => if r = ('\x7d' :: []) then some v else none
      | none => none := by
  unfold decodeChars
  rw [dropExpected_append]

/-- C8: round-trip of the broadcast wire format — serializing an animation
value that is null or a catalog name as `broadcast_state` does, then
decoding it as `listen_for_udp_state` does, yields the same value.  The
catalog is constrained to names of printable ASCII with no quote or
backslash, the fragment on which the embedded codec coincides with
`json.dumps` / `json.loads`. -/
theorem broadcast_roundtrip (catalog : List String) (v : Option String)
    (hchars : ∀ name ∈ catalog, ∀ c ∈ name.data,
      c ≠ '"' ∧ c ≠ '\\' ∧ 32 ≤ c.toNat ∧ c.toNat ≤ 126)
    (hv : v = none ∨ ∃ name ∈ catalog, v = some name) :
    decodeBroadcast (encodeBroadcast v) = some v := by
  rcases hv with rfl | ⟨name, hmem, rfl⟩
  · rfl
  · have hq : '"' ∉ name.data := fun hm => ((hchars name hmem) '"' hm).1 rfl
    have hdata : (encodeBroadcast (some name)).data =
        broadcastHeader ++ ('"' :: (name.data ++ '"' :: '\x7d' :: [])) := by
      simp [encodeBroadcast, encodeJsonStr, broadcastHeader]
    show decodeChars (encodeBroadcast (some name)).data = some (some name)
    rw [hdata, decodeChars_append, parseAnimValue_str name.data ('\x7d' :: []) hq]
    rfl

/-- Witness for C8: the catalog name `"rainbow"` and the null value both
survive the round trip. -/
theorem broadcast_roundtrip_witness :
    decodeBroadcast (encodeBroadcast (some "rainbow")) = some (some "rainbow") ∧
      decodeBroadcast (encodeBroadcast none) = some none :=
  ⟨broadcast_roundtrip ["rainbow"] (some "rainbow") (by decide)
      (Or.inr ⟨"rainbow", by decide, rfl⟩),
   broadcast_roundtrip ["rainbow"] none (by decide) (Or.inl rfl)⟩

/-- C4 counterexample: the datagram whose `animation` field is present and
null — which the coordinator itself broadcasts whenever no animation has
been chosen — decodes successfully, yet the listener leaves the local
state untouched instead of writing the null value into the `animation`
key as the claim requires. -/
theorem listener_null_field_counterexample :
    decodeBroadcast "\x7b\"animation\": null\x7d" = some none ∧
      processDatagram { animation := some "a", last_locked_animation := none }
          "\x7b\"animation\": null\x7d" ≠
        { animation := none, last_locked_animation := none } := by
  constructor
  · rfl
  · decide

/-- C4 (amended): on each datagram, the listener writes the decoded
`animation` value into local state when that value is a non-null name,
leaves the state unchanged when the field is null (or when decoding
fails, which is logged and discarded), and never terminates: processing is
a total function on states.  In particular a well-formed non-null datagram
followed by a malformed one yields exactly the first update. -/
theorem udp_listener_behavior (st : SharedState) (d d' : String) (name : String) :
    (decodeBroadcast d = some (some name) →
      processDatagram st d = { st with animation := some name }) ∧
    (decodeBroadcast d = some none → processDatagram st d = st) ∧
    (decodeBroadcast d = none → processDatagram st d = st) ∧
    (decodeBroadcast d = some (some name) → decodeBroadcast d' = none →
      processDatagram (processDatagram st d) d' = { st with animation := some name }) := by
  refine ⟨?_, ?_, ?_, ?_⟩
  · intro h; unfold processDatagram; rw [h]
  · intro h; unfold processDatagram; rw [h]
  · intro h; unfold processDatagram; rw [h]
  · intro h h'
    unfold processDatagram
    rw [h]
    show processDatagram { st with animation := some name } d' =
      { st with animation := some name }
    unfold processDatagram
    rw [h']

/-- Witness for C4: from the initial state, a well-formed datagram carrying
`"rainbow"` followed by the malformed datagram `garbage` produces exactly
one update. -/
theorem udp_listener_behavior_witness :
    processDatagram (processDatagram initialState "\x7b\"animation\": \"rainbow\"\x7d")
        "garbage" =
      { animation := some "rainbow", last_locked_animation := none } :=
  (udp_listener_behavior initialState "\x7b\"animation\": \"rainbow\"\x7d"
      "garbage" "rainbow").2.2.2 (by decide) (by decide)

/-- Witness for C3: a lock requested at time 85 is read when the 90-second
sleep ends (5 seconds old, inside the 10-second window): the rotation is
delayed past instant 90 but ends by instant 150. -/
theorem rotation_delay_bounded_witness :
    0 + TIME_BETWEEN_ANIMATIONS_SECONDS <
        rotationEnd (fun _ => 85) (some 85) 0 ∧
      rotationEnd (fun _ => 85) (some 85) 0 ≤
        0 + TIME_BETWEEN_ANIMATIONS_SECONDS + MAX_LOCK_TIME_SECONDS :=
  ⟨(rotation_delay_bounded (fun _ => 85) (some 85) 0).2 85 rfl (by decide),
   (rotation_delay_bounded (fun _ => 85) (some 85) 0).1⟩

/-- The wait loop makes at most `w` further polls. -/
theorem pollLoop_le (env : WifiEnv) :
    ∀ w polls, pollLoop env w polls ≤ polls + w := by
  intro w
  induction w with
  | zero => intro polls; exact Nat.le_refl polls
  | succ w ih =>
      intro polls
      unfold pollLoop
      by_cases hc : env.status polls = env.STAT_GOT_IP ∨ env.status polls < 0
      · rw [if_pos hc]; omega
      · rw [if_neg hc]
        have := ih (polls + 1)
        omega

/-- Every status read strictly before the last one was non-terminal: the
loop exits at the first terminal status. -/
theorem pollLoop_first_terminal (env : WifiEnv) :
    ∀ w polls k, polls ≤ k → k + 1 < pollLoop env w polls →
      ¬(env.status k = env.STAT_GOT_IP ∨ env.status k < 0) := by
  intro w
  induction w with
  | zero =>
      intro polls k hk hlt
      unfold pollLoop at hlt
      omega
  | succ w ih =>
      intro polls k hk hlt
      unfold pollLoop at hlt
      by_cases hc : env.status polls = env.STAT_GOT_IP ∨ env.status polls < 0
      · rw [if_pos hc] at hlt
        omega
      · rw [if_neg hc] at hlt
        rcases Nat.eq_or_lt_of_le hk with rfl | hgt
        · exact hc
        · exact ih (polls + 1) k hgt hlt

/-- The polls field does not depend on the final connectivity check. -/
theorem connect_to_wifi_polls (env : WifiEnv) :
    (connect_to_wifi env).polls = connectPolls env := by
  unfold connect_to_wifi
  by_cases h : env.isconnectedAfter = true
  · rw [if_pos h]
  · rw [if_neg h]

/-- C6: `connect_to_wifi` polls link status at most 20 times, stops polling
at the first status that equals `STAT_GOT_IP` or is negative (every
earlier poll was non-terminal), and on every run in which the link never
comes up — the final `wlan.isconnected()` is false — it returns `False`
with the radio deactivated. -/
theorem connect_retry_budget (env : WifiEnv) :
    (connect_to_wifi env).polls ≤ 20 ∧
    (∀ k, k + 1 < (connect_to_wifi env).polls →
      ¬(env.status k = env.STAT_GOT_IP ∨ env.status k < 0)) ∧
    (env.isconnectedAfter = false →
      (connect_to_wifi env).returned = false ∧
        (connect_to_wifi env).radioActive = false) := by
  refine ⟨?_, ?_, ?_⟩
  · rw [connect_to_wifi_polls]
    unfold connectPolls
    by_cases h0 : env.isconnected0 = true
    · rw [if_pos h0]; omega
    · rw [if_neg h0]
      have := pollLoop_le env 20 0
      omega
  · intro k hk
    rw [connect_to_wifi_polls] at hk
    unfold connectPolls at hk
    by_cases h0 : env.isconnected0 = true
    · rw [if_pos h0] at hk; omega
    · rw [if_neg h0] at hk
      exact pollLoop_first_terminal env 20 0 k (Nat.zero_le k) hk
  · intro hafter
    unfold connect_to_wifi
    rw [hafter]
    exact ⟨rfl, rfl⟩

/-- Witness for C6: a link that always reports status 1 (connecting) under
`STAT_GOT_IP = 3` and never comes up — connect returns `False` with the
radio off. -/
theorem connect_retry_budget_witness :
    (connect_to_wifi ⟨3, fun _ => 1, false, false⟩).returned = false ∧
      (connect_to_wifi ⟨3, fun _ => 1, false, false⟩).radioActive = false :=
  (connect_retry_budget ⟨3, fun _ => 1, false, false⟩).2.2 rfl

/-- C7: no fault of any underlying driver call escapes `connect_to_wifi`
(the model is a total function into `Bool × Bool`); whenever the `try`
body faults anywhere, the handlers convert the outcome to the return
value `False`, and they attempt the best-effort radio shutdown whenever
the radio object was constructed. -/
theorem connect_never_raises (d : FaultyDriver) (e : String)
    (h : connectBody d = .error e) :
    (connectWithFaults d).1 = false ∧
      (d.wlanCtor = .ok () → (connectWithFaults d).2 = true) := by
  constructor
  · unfold connectWithFaults
    rw [h]
    cases hctor : d.wlanCtor with
    | ok u => rfl
    | error msg => rfl
  · intro hctor
    unfold connectWithFaults
    rw [h, hctor]

/-- Witness for C7: `wlan.active(True)` raises; connect returns `False`
and the handler attempts the radio shutdown. -/
theorem connect_never_raises_witness :
    (connectWithFaults
        ⟨.ok (), .ok (), .error "boom", .ok false, .ok (), fun _ => .ok 1, 3,
         .ok false, .ok 1, .ok (), .ok ()⟩).1 = false ∧
      (connectWithFaults
        ⟨.ok (), .ok (), .error "boom", .ok false, .ok (), fun _ => .ok 1, 3,
         .ok false, .ok 1, .ok (), .ok ()⟩).2 = true :=
  ⟨(connect_never_raises
      ⟨.ok (), .ok (), .error "boom", .ok false, .ok (), fun _ => .ok 1, 3,
       .ok false, .ok 1, .ok (), .ok ()⟩ "boom" rfl).1,
   (connect_never_raises
      ⟨.ok (), .ok (), .error "boom", .ok false, .ok (), fun _ => .ok 1, 3,
       .ok false, .ok 1, .ok (), .ok ()⟩ "boom" rfl).2 rfl⟩

/-- C9: `send_message` returns `None` both when the transport faults
(timeout, socket error, unexpected exception) and when the server answers
exactly `UNKNOWN_REQUEST` — the two outcomes are the very same value, so a
caller cannot distinguish an unrecognized request from a failed
exchange. -/
theorem send_message_conflates (msg : String) (jr : Bool)
    (loads : String → Option SharedState) :
    send_message (.fault msg) jr loads = none ∧
    send_message (.response "UNKNOWN_REQUEST") jr loads = none ∧
    send_message (.response "UNKNOWN_REQUEST") jr loads =
      send_message (.fault msg) jr loads := by
  refine ⟨rfl, ?_, ?_⟩ <;> simp [send_message]
